import Mathlib

/-!
# Verification of the butteraugli perceptual-difference tool and engine

Shallow embedding of `src/tools/butteraugli_main.cc` and of the butteraugli
engine interface declared in `src/jxl/butteraugli/butteraugli.h`.

The engine's implementation file (`butteraugli.cc`, `butteraugli_pnorm.cc`,
`enc_butteraugli_comparator.cc`) is not part of the available sources; only
its header declarations and its caller (the command-line tool) are.  Where a
definition below embeds such missing code, its doc comment starts with
`Modelled from the spec:` and names what is missing; those definitions follow
the specification's words.  Everything else is translated directly from the
source files.

Conventions: C++ `float`/`double` samples are embedded as `ℚ` (exact
rationals; the claims under study are about control flow, structure and
monotonicity, not rounding).  `size_t` dimensions are `ℕ`.
-/

namespace Butteraugli

/-- A planar single-channel image: explicit width/height and a row-major grid
of samples, embedded as a function from coordinates to sample values
(`ImageF` in `jxl/image.h`). -/
structure ImageF where
  xsize : Nat
  ysize : Nat
  pix : Nat → Nat → ℚ

/-- A three-channel planar image (`Image3F` in `jxl/image.h`): three sample
grids sharing one width/height. -/
structure Image3 where
  xsize : Nat
  ysize : Nat
  pix : Fin 3 → Nat → Nat → ℚ

/-- The all-zero single-channel image used as a `getD` fallback. -/
def defaultImageF : ImageF := ⟨0, 0, fun _ _ => 0⟩

/-- `MaskImage` from `src/jxl/butteraugli/butteraugli.h` lines 126-131: two
floating-point grids `mask_x` and `mask_yb`. -/
structure MaskImage where
  mask_x : ImageF
  mask_yb : ImageF

/-- The grids a `MaskImage` consists of, in declaration order. -/
def MaskImage.grids (m : MaskImage) : List ImageF := [m.mask_x, m.mask_yb]

/-- `PsychoImage` from `src/jxl/butteraugli/butteraugli.h` lines 133-138:
`ImageF uhf[2]; ImageF hf[2]; Image3F mf; Image3F lf;`.  The fixed-size C
arrays `uhf[2]` and `hf[2]` are embedded as lists carrying their length
invariant; the `Image3F` members are embedded as three-element channel
lists. -/
structure PsychoImage where
  uhf : List ImageF
  hf : List ImageF
  mf : List ImageF
  lf : List ImageF
  uhf_len : uhf.length = 2
  hf_len : hf.length = 2
  mf_len : mf.length = 3
  lf_len : lf.length = 3

/-- Modelled from the spec: the forward fuzzy classification
`ButteraugliFuzzyClass` (declared at `butteraugli.h` lines 80-90, body not in
the available sources).  Per the spec (§4.5) it maps a nonnegative score to a
continuous value on [0, 2], equals 2.0 for a perfect match (score 0), is
strictly decreasing, and is continuous everywhere; the spec leaves the exact
closed-form shape open (§9), so a rational strictly-decreasing stand-in with
those properties is used. -/
def butteraugliFuzzyClass (score : ℚ) : ℚ := 2 / (1 + score)

/-- Modelled from the spec: `ButteraugliFuzzyInverse` (declared at
`butteraugli.h` lines 92-94, body not in the available sources).  Per the
spec (§4.5) it must be the exact mathematical inverse of the forward mapping
on its valid domain (class values in (0, 2]). -/
def butteraugliFuzzyInverse (seek : ℚ) : ℚ := 2 / seek - 1

/-- One channel of a three-channel image, viewed as a planar image. -/
def Image3.channel (im : Image3) (c : Fin 3) : ImageF :=
  ⟨im.xsize, im.ysize, im.pix c⟩

/-- Modelled from the spec: an even-symmetric low-pass convolution (§4.1
requires the downsampling/filter kernels to be even-symmetric and
reproducible; the exact taps are not given).  A clamped-edge (1, 2, 1)/4
kernel. -/
def blur (im : ImageF) : ImageF :=
  ⟨im.xsize, im.ysize, fun x y =>
    (im.pix (x - 1) y + 2 * im.pix x y + im.pix (x + 1) y) / 4⟩

/-- Pointwise difference of two planar images (dimensions of the first). -/
def imSub (a b : ImageF) : ImageF :=
  ⟨a.xsize, a.ysize, fun x y => a.pix x y - b.pix x y⟩

/-- Modelled from the spec: the frequency pyramid builder (§4.1;
`SeparateFrequencies` in the missing `butteraugli.cc`).  Four octave-like
bands obtained from repeated low-pass filtering; the two highest bands are
computed only for the first two channels, all three channels for the mid and
low bands, matching the channel counts of `PsychoImage` in the header. -/
def separateFrequencies (im : Image3) : PsychoImage :=
  let ch0 := im.channel 0
  let ch1 := im.channel 1
  let ch2 := im.channel 2
  { uhf := [imSub ch0 (blur ch0), imSub ch1 (blur ch1)]
    hf := [imSub (blur ch0) (blur (blur ch0)), imSub (blur ch1) (blur (blur ch1))]
    mf := [imSub (blur (blur ch0)) (blur (blur (blur ch0))),
           imSub (blur (blur ch1)) (blur (blur (blur ch1))),
           imSub (blur (blur ch2)) (blur (blur (blur ch2)))]
    lf := [blur (blur (blur ch0)), blur (blur (blur ch1)), blur (blur (blur ch2))]
    uhf_len := rfl
    hf_len := rfl
    mf_len := rfl
    lf_len := rfl }

/-- Modelled from the spec: the opsin-dynamics preprocessing
(`OpsinDynamicsImage` in the missing sources); a monotone compressive
per-sample response curve, exact shape not given in the spec. -/
def opsinDynamics (im : Image3) : Image3 :=
  ⟨im.xsize, im.ysize, fun c x y => im.pix c x y / (1 + |im.pix c x y|)⟩

/-- Modelled from the spec: the saturating masking response curve (§4.2):
monotone in local contrast, bounded, and never zero.  Maps a nonnegative
local energy `e` into [1, 2). -/
def satResponse (e : ℚ) : ℚ := 1 + e / (1 + e)

/-- Modelled from the spec: the visual masking model (§4.2; `Mask` /
`MaskPsychoImage` in the missing sources): local contrast energy from the
high-frequency band, mapped through the saturating response curve,
separately for the luma-like (`mask_x`) and chroma-like (`mask_yb`)
pathways. -/
def maskFromPsycho (ps : PsychoImage) : MaskImage :=
  let hx := ps.hf.getD 0 defaultImageF
  let hy := ps.hf.getD 1 defaultImageF
  { mask_x := ⟨hx.xsize, hx.ysize, fun x y => satResponse |hx.pix x y|⟩
    mask_yb := ⟨hy.xsize, hy.ysize, fun x y => satResponse |hy.pix x y|⟩ }

/-- Modelled from the spec: the per-band nonlinear error of a signed band
difference (§4.3: "a nonlinear function of the signed difference ... not a
plain squared error, to emulate perceptual saturation"; exact shape left
open in §9).  Saturating, nonnegative, and zero exactly at zero
difference. -/
def bandError (d : ℚ) : ℚ := d * d / (1 + |d|)

/-- Modelled from the spec: the asymmetry weighting (§4.3): differences
where the distorted band sample has larger magnitude than the reference's
(newly introduced high-frequency content) are weighted by the asymmetry
factor; removed content is weighted neutrally. -/
def hfWeight (asym refv dv : ℚ) : ℚ := if |refv| < |dv| then asym else 1

/-- Per-pixel contribution of one high-frequency band channel, with the
asymmetry weighting applied. -/
def hfBandDiff (asym : ℚ) (a b : ImageF) (x y : Nat) : ℚ :=
  hfWeight asym (a.pix x y) (b.pix x y) * bandError (a.pix x y - b.pix x y)

/-- Per-pixel contribution of one mid/low-frequency band channel. -/
def mfBandDiff (a b : ImageF) (x y : Nat) : ℚ :=
  bandError (a.pix x y - b.pix x y)

/-- Modelled from the spec: the band difference combiner (§4.3;
`DiffmapPsychoImage`'s core in the missing `butteraugli.cc`): per-band
errors of the two pyramids, asymmetry-weighted for the high-frequency
bands, divided by the masking thresholds derived from the reference
pyramid, and summed across bands and channels into one scalar per pixel. -/
def diffmapFromPsycho (asym : ℚ) (ps0 ps1 : PsychoImage) (xs ys : Nat) : ImageF :=
  let mask := maskFromPsycho ps0
  ⟨xs, ys, fun x y =>
    (∑ c ∈ Finset.range 2,
        hfBandDiff asym (ps0.uhf.getD c defaultImageF) (ps1.uhf.getD c defaultImageF) x y
      + ∑ c ∈ Finset.range 2,
        hfBandDiff asym (ps0.hf.getD c defaultImageF) (ps1.hf.getD c defaultImageF) x y)
      / mask.mask_x.pix x y
    + (∑ c ∈ Finset.range 3,
        mfBandDiff (ps0.mf.getD c defaultImageF) (ps1.mf.getD c defaultImageF) x y
      + ∑ c ∈ Finset.range 3,
        mfBandDiff (ps0.lf.getD c defaultImageF) (ps1.lf.getD c defaultImageF) x y)
      / mask.mask_yb.pix x y⟩

/-- Modelled from the spec: the end-to-end difference-map computation
(§2 data flow): opsin dynamics, frequency decomposition of both images,
then the band difference combiner; output at the source resolution. -/
def topDiffmap (rgb0 rgb1 : Image3) (asym : ℚ) : ImageF :=
  diffmapFromPsycho asym
    (separateFrequencies (opsinDynamics rgb0))
    (separateFrequencies (opsinDynamics rgb1))
    rgb0.xsize rgb0.ysize

/-- Sum of cubed pixel values over the image's grid: the inner part of the
order-3 norm used for pooling (§4.5, glossary "p-norm pooling"). -/
def sumCubes (im : ImageF) : ℚ :=
  ∑ y ∈ Finset.range im.ysize, ∑ x ∈ Finset.range im.xsize, (im.pix x y) ^ 3

/-- Modelled from the spec: score pooling (`ButteraugliScoreFromDiffmap`,
declared at `butteraugli.h` line 169, body not in the available sources):
an order-p norm (Σ vᵖ)^(1/p) with p = 3 over all pixel values (§4.5). -/
noncomputable def scoreFromDiffmap (im : ImageF) : ℝ :=
  (sumCubes im : ℝ) ^ ((3 : ℝ)⁻¹)

/-- Clamp a rational to an 8-bit sample value. -/
def clampByte (q : ℚ) : ℕ := min 255 (max 0 ⌊q⌋).toNat

/-- Modelled from the spec: the per-pixel heatmap color (§4.6): a ramp that
encodes where the difference value falls relative to the good/bad
thresholds; zero difference renders black. -/
def heatMapColor (good bad d : ℚ) (c : Fin 3) : ℕ :=
  if c.val = 0 then clampByte (255 * d / bad)
  else if c.val = 1 then clampByte (255 * d / good)
  else 0

/-- A three-channel 8-bit image (`Image3B`). -/
structure HeatImage where
  xsize : Nat
  ysize : Nat
  pix : Fin 3 → Nat → Nat → ℕ

/-- Modelled from the spec: the heatmap renderer (`CreateHeatMapImage`,
declared at `butteraugli.h` lines 172-173, body not in the available
sources): pure per-pixel application of the color ramp (§4.6). -/
def createHeatMapImage (distmap : ImageF) (good bad : ℚ) : HeatImage :=
  ⟨distmap.xsize, distmap.ysize, fun c x y => heatMapColor good bad (distmap.pix x y) c⟩

/-- The precondition of the engine entry points (§4.1, §7): equal
dimensions and a nonzero-size image.  (NaN samples, the remaining item of
the spec's precondition list, do not exist in the exact-rational
embedding.) -/
def validPair (rgb0 rgb1 : Image3) : Bool :=
  rgb0.xsize == rgb1.xsize && rgb0.ysize == rgb1.ysize
    && 0 < rgb0.xsize && 0 < rgb0.ysize

/-- Modelled from the spec: the checked engine entry point
(`ButteraugliDiffmap` / `ButteraugliInterface`, declared at `butteraugli.h`
lines 76-78 and 166-167, bodies not in the available sources): on a
precondition violation it fails fast and produces no result (§7); otherwise
it produces the difference map. -/
def butteraugliDiffmapM (rgb0 rgb1 : Image3) (asym : ℚ) : Option ImageF :=
  if validPair rgb0 rgb1 then some (topDiffmap rgb0 rgb1 asym) else none

/-- Modelled from the spec: the comparator state (`ButteraugliComparator`,
`butteraugli.h` lines 140-164): source dimensions, asymmetry factor, the
reference pyramid, and an optional owned sub-comparator (header field
`ButteraugliComparator *sub_`; §9). -/
inductive Comparator where
  | mk : (xsize ysize : Nat) → (hfAsymmetry : ℚ) → (pi0 : PsychoImage) →
      (sub : Option Comparator) → Comparator

/-- The comparator's stored width. -/
def Comparator.xsize : Comparator → Nat
  | .mk xs _ _ _ _ => xs

/-- The comparator's stored height. -/
def Comparator.ysize : Comparator → Nat
  | .mk _ ys _ _ _ => ys

/-- The comparator's stored asymmetry factor. -/
def Comparator.hfAsymmetry : Comparator → ℚ
  | .mk _ _ a _ _ => a

/-- The comparator's stored reference pyramid. -/
def Comparator.pi0 : Comparator → PsychoImage
  | .mk _ _ _ p _ => p

/-- The comparator's sub-comparator slot. -/
def Comparator.sub : Comparator → Option Comparator
  | .mk _ _ _ _ s => s

/-- Modelled from the spec: comparator construction (§4.4): stores the
dimensions, the asymmetry factor and the reference pyramid. -/
def Comparator.construct (rgb0 : Image3) (asym : ℚ) : Comparator :=
  .mk rgb0.xsize rgb0.ysize asym (separateFrequencies (opsinDynamics rgb0)) none

/-- Modelled from the spec: `ButteraugliComparator::DiffmapPsychoImage`
(declared const at `butteraugli.h` line 153, body not in the available
sources).  State-passing embedding: returns the difference map together
with the comparator state after the call; per §4.4 the call is a pure
function of its inputs plus the retained reference state. -/
def Comparator.diffmapPsychoImage (c : Comparator) (ps1 : PsychoImage) :
    ImageF × Comparator :=
  (diffmapFromPsycho c.hfAsymmetry c.pi0 ps1 c.xsize c.ysize, c)

/-- Modelled from the spec: `ButteraugliComparator::DiffmapOpsinDynamicsImage`
(declared const at `butteraugli.h` line 150): decomposes the distorted
opsin image and defers to `diffmapPsychoImage`. -/
def Comparator.diffmapOpsinDynamicsImage (c : Comparator) (xyb1 : Image3) :
    ImageF × Comparator :=
  ((c.diffmapPsychoImage (separateFrequencies xyb1)).1, c)

/-- Modelled from the spec: `ButteraugliComparator::Diffmap` (declared const
at `butteraugli.h` line 147): applies opsin dynamics and defers to
`diffmapOpsinDynamicsImage`. -/
def Comparator.diffmap (c : Comparator) (rgb1 : Image3) : ImageF × Comparator :=
  ((c.diffmapOpsinDynamicsImage (opsinDynamics rgb1)).1, c)

/-! ## The command-line tool (`src/tools/butteraugli_main.cc`)

The tool's observable behavior is embedded as a pure function from an
environment (what `SetFromFile` would yield for each path) and an engine
oracle (the values the linked engine functions would return) to a result:
exit code, lines printed to standard output and standard error, and the
engine invocations made, with their scalar arguments. -/

/-- A line printed to standard output by the tool: the `%.10f` score line
(`butteraugli_main.cc` line 89) or the `%g-norm: %f` line (line 93),
carrying the printed numbers. -/
inductive OutLine where
  | score : ℚ → OutLine
  | pnormLine : ℚ → ℚ → OutLine
  deriving DecidableEq

/-- A diagnostic printed to standard error by the tool: the usage message
(lines 109-116), a read failure naming the path (lines 63, 72), or a
dimension mismatch naming both sizes (lines 77, 81). -/
inductive ErrLine where
  | usage : ErrLine
  | readFail : String → ErrLine
  | widthMismatch : Nat → Nat → ErrLine
  | heightMismatch : Nat → Nat → ErrLine
  deriving DecidableEq

/-- An engine invocation made by the tool, with the scalar arguments the
tool passes: `ButteraugliDistance` with its `hf_asymmetry` (line 87),
`ComputeDistanceP` with its exponent `p` (line 92), and
`CreateHeatMapImage` with its good/bad thresholds (line 98). -/
inductive EngineCall where
  | distance : ℚ → EngineCall
  | pnormCall : ℚ → EngineCall
  | heatmap : ℚ → ℚ → EngineCall
  deriving DecidableEq

/-- Oracle for the engine functions the tool links against (their bodies
are not part of the available sources): `ButteraugliDistance` returns the
scalar distance and the difference map; `ComputeDistanceP` returns the
p-norm of a difference map. -/
structure Engine where
  butteraugliDistance : Image3 → Image3 → ℚ → ℚ × ImageF
  computeDistanceP : ImageF → ℚ → ℚ

/-- The tool's file-reading environment: what `SetFromFile` yields for a
path, given the colorspace hint added to the decode hints (`none` means the
read fails). -/
structure Env where
  readFile : String → String → Option Image3

/-- The observable outcome of one tool invocation. -/
structure ToolResult where
  exitCode : Nat
  stdoutLines : List OutLine
  stderrLines : List ErrLine
  engineCalls : List EngineCall
  deriving DecidableEq

/-- `RunButteraugli` (`butteraugli_main.cc` lines 54-102): read both
images (failing with a diagnostic naming the path), check width and height
(failing with a diagnostic naming both sizes), then compute and print the
distance (asymmetry 0.8) and the 3-norm of the difference map, and — when a
distmap file was requested — render the heatmap with thresholds
`ButteraugliFuzzyInverse(1.5)` and `ButteraugliFuzzyInverse(0.5)`.
`main` maps the returned status to exit code 0 or 1 (line 128). -/
def runButteraugli (E : Engine) (env : Env)
    (path1 path2 distmapName colorspaceHint : String) : ToolResult :=
  match env.readFile path1 colorspaceHint with
  | none => ⟨1, [], [.readFail path1], []⟩
  | some io1 =>
    match env.readFile path2 colorspaceHint with
    | none => ⟨1, [], [.readFail path2], []⟩
    | some io2 =>
      if io1.xsize ≠ io2.xsize then
        ⟨1, [], [.widthMismatch io1.xsize io2.xsize], []⟩
      else if io1.ysize ≠ io2.ysize then
        ⟨1, [], [.heightMismatch io1.ysize io2.ysize], []⟩
      else
        let kHfAsymmetry : ℚ := 4 / 5
        let r := E.butteraugliDistance io1 io2 kHfAsymmetry
        let p : ℚ := 3
        let pn := E.computeDistanceP r.2 p
        if distmapName ≠ "" then
          ⟨0, [.score r.1, .pnormLine p pn], [],
            [.distance kHfAsymmetry, .pnormCall p,
              .heatmap (butteraugliFuzzyInverse (3 / 2))
                (butteraugliFuzzyInverse (1 / 2))]⟩
        else
          ⟨0, [.score r.1, .pnormLine p pn], [],
            [.distance kHfAsymmetry, .pnormCall p]⟩

/-- One iteration of the option-scanning loop (`butteraugli_main.cc` lines
121-126): two sequential `if` statements; each consumes the following
argument as the flag's value when the flag matches and a following argument
exists, advancing the index — so the second `if` inspects the argument the
first may just have consumed.  Returns the index after both tests together
with the current distmap/colorspace values. -/
def flagStep (args : List String) (i : Nat) (dm cs : String) :
    Nat × String × String :=
  let s1 : Nat × String :=
    if args.getD i "" = "--distmap" ∧ i + 1 < args.length then
      (i + 1, args.getD (i + 1) "")
    else (i, dm)
  let s2 : Nat × String :=
    if args.getD s1.1 "" = "--colorspace" ∧ s1.1 + 1 < args.length then
      (s1.1 + 1, args.getD (s1.1 + 1) "")
    else (s1.1, cs)
  (s2.1, s1.2, s2.2)

/-- The option-scanning loop of `main` (`butteraugli_main.cc` lines
119-126): `for (int i = 2; i < argc; i++)` over `flagStep`. -/
def flagLoop (args : List String) (i : Nat) (dm cs : String) :
    String × String :=
  if i < args.length then
    let s := flagStep args i dm cs
    flagLoop args (s.1 + 1) s.2.1 s.2.2
  else (dm, cs)
termination_by args.length - i
decreasing_by
  simp only [flagStep]
  split_ifs <;> omega

/-- The distmap/colorspace values `main` extracts from the argument list:
the loop starts at index 2 with both values empty. -/
def parseFlags (args : List String) : String × String := flagLoop args 2 "" ""

/-- `main` (`butteraugli_main.cc` lines 107-129): with fewer than three
arguments, print the usage message and exit 1; otherwise scan the options
and call `RunButteraugli` with `argv[1]` and `argv[2]` as the two image
paths. -/
def mainTool (E : Engine) (env : Env) (args : List String) : ToolResult :=
  if args.length < 3 then ⟨1, [], [.usage], []⟩
  else
    runButteraugli E env (args.getD 1 "") (args.getD 2 "")
      (parseFlags args).1 (parseFlags args).2

/-- A concrete constant-valued three-channel image, for witnesses. -/
def constImage (xs ys : Nat) (v : ℚ) : Image3 := ⟨xs, ys, fun _ _ _ => v⟩

/-- A concrete engine oracle, for witnesses. -/
def dummyEngine : Engine := ⟨fun _ _ _ => (0, defaultImageF), fun _ _ => 0⟩

/-- A concrete environment in which every path reads the same image, for
witnesses. -/
def envConst (im : Image3) : Env := ⟨fun _ _ => some im⟩

/-- A concrete environment in which the path "a" reads a 2-by-2 image and
every other path a 3-by-2 image, for witnesses. -/
def envByPath : Env :=
  ⟨fun p _ => if p = "a" then some (constImage 2 2 0) else some (constImage 3 2 0)⟩

/-! ## Theorems -/

/-- C5: for every score `s` in the valid domain (nonnegative scores), the
provided inverse is the exact mathematical inverse of the forward fuzzy
mapping: `butteraugliFuzzyInverse (butteraugliFuzzyClass s) = s`. -/
theorem fuzzyInverse_fuzzyClass (s : ℚ) (hs : 0 ≤ s) :
    butteraugliFuzzyInverse (butteraugliFuzzyClass s) = s := by
  unfold butteraugliFuzzyClass butteraugliFuzzyInverse
  have h1 : (1 : ℚ) + s ≠ 0 := by positivity
  field_simp

/-- Witness for C5: the round trip at the scores corresponding to the
sample class inputs 2.0, 1.5, 1.0 and 0.5 (scores 0, 1/3, 1 and 3). -/
theorem fuzzyInverse_fuzzyClass_witness :
    ((0 : ℚ) ≤ 0 ∧ butteraugliFuzzyInverse (butteraugliFuzzyClass 0) = 0) ∧
    ((0 : ℚ) ≤ 1 / 3 ∧
      butteraugliFuzzyInverse (butteraugliFuzzyClass (1 / 3)) = 1 / 3) ∧
    ((0 : ℚ) ≤ 1 ∧ butteraugliFuzzyInverse (butteraugliFuzzyClass 1) = 1) ∧
    ((0 : ℚ) ≤ 3 ∧ butteraugliFuzzyInverse (butteraugliFuzzyClass 3) = 3) :=
  ⟨⟨by norm_num, fuzzyInverse_fuzzyClass 0 (by norm_num)⟩,
    ⟨by norm_num, fuzzyInverse_fuzzyClass (1 / 3) (by norm_num)⟩,
    ⟨by norm_num, fuzzyInverse_fuzzyClass 1 (by norm_num)⟩,
    ⟨by norm_num, fuzzyInverse_fuzzyClass 3 (by norm_num)⟩⟩

/-- C6: on a precondition violation (mismatched dimensions or a zero-size
image; NaN samples do not exist in the exact-rational embedding) the checked
engine entry point fails fast and produces no result — and it fails in
exactly those cases. -/
theorem butteraugliDiffmapM_fails_fast (rgb0 rgb1 : Image3) (asym : ℚ) :
    butteraugliDiffmapM rgb0 rgb1 asym = none ↔ validPair rgb0 rgb1 = false := by
  unfold butteraugliDiffmapM
  cases hv : validPair rgb0 rgb1 <;> simp [hv]

/-- C7: every pyramid stores exactly 2 ultra-high-frequency channels, 2
high-frequency channels, 3 mid-frequency channels and 3 low-frequency
channels, and every masking image consists of exactly the two grids
`mask_x` and `mask_yb`. -/
theorem psychoImage_channel_counts (p : PsychoImage) (m : MaskImage) :
    p.uhf.length = 2 ∧ p.hf.length = 2 ∧ p.mf.length = 3 ∧ p.lf.length = 3 ∧
    m.grids = [m.mask_x, m.mask_yb] ∧ m.grids.length = 2 :=
  ⟨p.uhf_len, p.hf_len, p.mf_len, p.lf_len, rfl, rfl⟩

/-- C8: the comparator's state is left unchanged by every call to
`Diffmap`, `DiffmapOpsinDynamicsImage` and `DiffmapPsychoImage` — in the
state-passing embedding, each call returns exactly the comparator it was
given, so repeated comparisons against the same reference see identical
state. -/
theorem comparator_state_immutable (c : Comparator) (ps1 : PsychoImage)
    (xyb1 rgb1 : Image3) :
    (c.diffmapPsychoImage ps1).2 = c ∧
    (c.diffmapOpsinDynamicsImage xyb1).2 = c ∧
    (c.diffmap rgb1).2 = c :=
  ⟨rfl, rfl, rfl⟩

/-- C9: score pooling is monotonic: if difference map `a` dominates
difference map `b` at every pixel (and `b` is a valid, nonnegative
difference map of the same dimensions), then the pooled score of `a` is at
least the pooled score of `b`. -/
theorem scoreFromDiffmap_monotone (a b : ImageF)
    (hx : a.xsize = b.xsize) (hy : a.ysize = b.ysize)
    (hnn : ∀ x < b.xsize, ∀ y < b.ysize, 0 ≤ b.pix x y)
    (hdom : ∀ x < b.xsize, ∀ y < b.ysize, b.pix x y ≤ a.pix x y) :
    scoreFromDiffmap b ≤ scoreFromDiffmap a := by
  unfold scoreFromDiffmap
  have hb0 : (0 : ℚ) ≤ sumCubes b := by
    unfold sumCubes
    refine Finset.sum_nonneg fun y hyr => Finset.sum_nonneg fun x hxr => ?_
    exact pow_nonneg
      (hnn x (Finset.mem_range.mp hxr) y (Finset.mem_range.mp hyr)) 3
  have hsum : sumCubes b ≤ sumCubes a := by
    unfold sumCubes
    rw [hx, hy]
    refine Finset.sum_le_sum fun y hyr => Finset.sum_le_sum fun x hxr => ?_
    exact pow_le_pow_left₀
      (hnn x (Finset.mem_range.mp hxr) y (Finset.mem_range.mp hyr))
      (hdom x (Finset.mem_range.mp hxr) y (Finset.mem_range.mp hyr)) 3
  exact Real.rpow_le_rpow (by exact_mod_cast hb0) (by exact_mod_cast hsum)
    (by norm_num)

/-- The all-ones 2-by-2 difference map, for witnesses. -/
def imgOne : ImageF := ⟨2, 2, fun _ _ => 1⟩

/-- The all-zeros 2-by-2 difference map, for witnesses. -/
def imgZero : ImageF := ⟨2, 2, fun _ _ => 0⟩

/-- Witness for C9: the all-ones map dominates the all-zeros map and pools
to an at-least-as-large score. -/
theorem scoreFromDiffmap_monotone_witness :
    imgOne.xsize = imgZero.xsize ∧ imgOne.ysize = imgZero.ysize ∧
    (∀ x < imgZero.xsize, ∀ y < imgZero.ysize, 0 ≤ imgZero.pix x y) ∧
    (∀ x < imgZero.xsize, ∀ y < imgZero.ysize,
      imgZero.pix x y ≤ imgOne.pix x y) ∧
    scoreFromDiffmap imgZero ≤ scoreFromDiffmap imgOne :=
  ⟨rfl, rfl, by decide, by decide,
    scoreFromDiffmap_monotone imgOne imgZero rfl rfl (by decide) (by decide)⟩

/-- Comparing an image against itself gives a zero difference at every
location: the two pyramids coincide, so every band difference is the band
error of a zero signed difference. -/
theorem topDiffmap_self_pix (im : Image3) (asym : ℚ) (x y : Nat) :
    (topDiffmap im im asym).pix x y = 0 := by
  simp [topDiffmap, diffmapFromPsycho, hfBandDiff, mfBandDiff, bandError,
    sub_self]

/-- C3: for every valid image, comparing the image against itself yields a
difference map that is zero at every pixel, a scalar score of exactly 0,
and an all-black heatmap under the default thresholds
`butteraugliFuzzyInverse 1.5` (good) and `butteraugliFuzzyInverse 0.5`
(bad). -/
theorem compare_identity (im : Image3) (asym : ℚ)
    (_hvalid : 0 < im.xsize ∧ 0 < im.ysize) :
    (∀ x < im.xsize, ∀ y < im.ysize, (topDiffmap im im asym).pix x y = 0) ∧
    scoreFromDiffmap (topDiffmap im im asym) = 0 ∧
    (∀ c : Fin 3, ∀ x < im.xsize, ∀ y < im.ysize,
      (createHeatMapImage (topDiffmap im im asym)
          (butteraugliFuzzyInverse (3 / 2))
          (butteraugliFuzzyInverse (1 / 2))).pix c x y = 0) := by
  refine ⟨fun x _ y _ => topDiffmap_self_pix im asym x y, ?_, ?_⟩
  · unfold scoreFromDiffmap
    have h0 : sumCubes (topDiffmap im im asym) = 0 := by
      unfold sumCubes
      simp [topDiffmap_self_pix]
    rw [h0, Rat.cast_zero]
    exact Real.zero_rpow (by norm_num)
  · intro c x _ y _
    simp [createHeatMapImage, heatMapColor, clampByte, topDiffmap_self_pix]

/-- A 64-by-64 constant-gray image, the concrete scenario of C3. -/
def gray64 : Image3 := constImage 64 64 (1 / 2)

/-- Witness for C3: two identical 64-by-64 constant-gray images produce a
zero difference map, score 0, and an all-black heatmap under the default
thresholds. -/
theorem compare_identity_witness :
    (0 < gray64.xsize ∧ 0 < gray64.ysize) ∧
    ((∀ x < gray64.xsize, ∀ y < gray64.ysize,
        (topDiffmap gray64 gray64 (4 / 5)).pix x y = 0) ∧
      scoreFromDiffmap (topDiffmap gray64 gray64 (4 / 5)) = 0 ∧
      (∀ c : Fin 3, ∀ x < gray64.xsize, ∀ y < gray64.ysize,
        (createHeatMapImage (topDiffmap gray64 gray64 (4 / 5))
            (butteraugliFuzzyInverse (3 / 2))
            (butteraugliFuzzyInverse (1 / 2))).pix c x y = 0)) :=
  ⟨⟨by decide, by decide⟩, compare_identity gray64 (4 / 5) ⟨by decide, by decide⟩⟩

/-- C1: on success (both files readable, matching dimensions) the tool
prints the scalar score and its p-norm to standard output and exits with
code 0; on each failure — unreadable first file, unreadable second file,
width mismatch, height mismatch, and too few arguments — a diagnostic is
printed to standard error, nothing to standard output, and the exit code
is 1. -/
theorem tool_exit_codes (E : Engine) (env : Env) (p1 p2 dm cs : String) :
    (∀ im1 im2, env.readFile p1 cs = some im1 →
      env.readFile p2 cs = some im2 →
      im1.xsize = im2.xsize → im1.ysize = im2.ysize →
      (runButteraugli E env p1 p2 dm cs).exitCode = 0 ∧
      (∃ d pn, (runButteraugli E env p1 p2 dm cs).stdoutLines =
        [OutLine.score d, OutLine.pnormLine 3 pn]) ∧
      (runButteraugli E env p1 p2 dm cs).stderrLines = []) ∧
    (env.readFile p1 cs = none →
      runButteraugli E env p1 p2 dm cs = ⟨1, [], [.readFail p1], []⟩) ∧
    (∀ im1, env.readFile p1 cs = some im1 → env.readFile p2 cs = none →
      runButteraugli E env p1 p2 dm cs = ⟨1, [], [.readFail p2], []⟩) ∧
    (∀ im1 im2, env.readFile p1 cs = some im1 →
      env.readFile p2 cs = some im2 → im1.xsize ≠ im2.xsize →
      runButteraugli E env p1 p2 dm cs =
        ⟨1, [], [.widthMismatch im1.xsize im2.xsize], []⟩) ∧
    (∀ im1 im2, env.readFile p1 cs = some im1 →
      env.readFile p2 cs = some im2 →
      im1.xsize = im2.xsize → im1.ysize ≠ im2.ysize →
      runButteraugli E env p1 p2 dm cs =
        ⟨1, [], [.heightMismatch im1.ysize im2.ysize], []⟩) ∧
    (∀ args : List String, args.length < 3 →
      mainTool E env args = ⟨1, [], [.usage], []⟩) := by
  refine ⟨?_, ?_, ?_, ?_, ?_, ?_⟩
  · intro im1 im2 h1 h2 hx hy
    by_cases hdm : dm = "" <;>
      simp [runButteraugli, h1, h2, hx, hy, hdm]
  · intro h1
    simp [runButteraugli, h1]
  · intro im1 h1 h2
    simp [runButteraugli, h1, h2]
  · intro im1 im2 h1 h2 hne
    simp [runButteraugli, h1, h2, hne]
  · intro im1 im2 h1 h2 hx hne
    simp [runButteraugli, h1, h2, hx, hne]
  · intro args hlen
    simp [mainTool, hlen]

/-- Witness for C1: a success run at a concrete environment exits 0 with
the score and the 3-norm on standard output and nothing on standard
error. -/
theorem tool_exit_codes_witness :
    (envConst (constImage 2 2 0)).readFile "a" "" = some (constImage 2 2 0) ∧
    (envConst (constImage 2 2 0)).readFile "b" "" = some (constImage 2 2 0) ∧
    (constImage 2 2 0).xsize = (constImage 2 2 0).xsize ∧
    (constImage 2 2 0).ysize = (constImage 2 2 0).ysize ∧
    ((runButteraugli dummyEngine (envConst (constImage 2 2 0))
        "a" "b" "" "").exitCode = 0 ∧
      (∃ d pn, (runButteraugli dummyEngine (envConst (constImage 2 2 0))
        "a" "b" "" "").stdoutLines =
          [OutLine.score d, OutLine.pnormLine 3 pn]) ∧
      (runButteraugli dummyEngine (envConst (constImage 2 2 0))
        "a" "b" "" "").stderrLines = []) :=
  ⟨rfl, rfl, rfl, rfl,
    (tool_exit_codes dummyEngine (envConst (constImage 2 2 0))
        "a" "b" "" "").1
      (constImage 2 2 0) (constImage 2 2 0) rfl rfl rfl rfl⟩

/-- C2: when the two images' widths (or heights) differ, the tool reports a
precondition failure naming the mismatching sizes on standard error, exits
with code 1, prints nothing to standard output, and makes no engine call:
neither a difference map nor a score is computed. -/
theorem dimension_mismatch_no_computation (E : Engine) (env : Env)
    (p1 p2 dm cs : String) (im1 im2 : Image3)
    (h1 : env.readFile p1 cs = some im1)
    (h2 : env.readFile p2 cs = some im2) :
    (im1.xsize ≠ im2.xsize →
      runButteraugli E env p1 p2 dm cs =
        ⟨1, [], [.widthMismatch im1.xsize im2.xsize], []⟩) ∧
    (im1.xsize = im2.xsize → im1.ysize ≠ im2.ysize →
      runButteraugli E env p1 p2 dm cs =
        ⟨1, [], [.heightMismatch im1.ysize im2.ysize], []⟩) := by
  constructor
  · intro hne
    simp [runButteraugli, h1, h2, hne]
  · intro hx hne
    simp [runButteraugli, h1, h2, hx, hne]

/-- Witness for C2: a 2-by-2 reference against a 3-by-2 distorted image
yields exactly the width-mismatch diagnostic, exit code 1, no output and no
engine call. -/
theorem dimension_mismatch_witness :
    envByPath.readFile "a" "" = some (constImage 2 2 0) ∧
    envByPath.readFile "b" "" = some (constImage 3 2 0) ∧
    (constImage 2 2 0).xsize ≠ (constImage 3 2 0).xsize ∧
    runButteraugli dummyEngine envByPath "a" "b" "" "" =
      ⟨1, [], [.widthMismatch 2 3], []⟩ :=
  ⟨rfl, rfl, by decide,
    (dimension_mismatch_no_computation dummyEngine envByPath "a" "b" "" ""
        (constImage 2 2 0) (constImage 3 2 0) rfl rfl).1 (by decide)⟩

/-- C4: on every successful run the tool invokes the comparison with
asymmetry factor 0.8 (= 4/5) and pools the difference map with the order-3
norm, and prints exactly the resulting score and 3-norm. -/
theorem tool_uses_asymmetry_and_p3 (E : Engine) (env : Env)
    (p1 p2 dm cs : String) (im1 im2 : Image3)
    (h1 : env.readFile p1 cs = some im1)
    (h2 : env.readFile p2 cs = some im2)
    (hx : im1.xsize = im2.xsize) (hy : im1.ysize = im2.ysize) :
    (runButteraugli E env p1 p2 dm cs).engineCalls =
      EngineCall.distance (4 / 5) :: EngineCall.pnormCall 3 ::
        (if dm ≠ "" then
          [EngineCall.heatmap (butteraugliFuzzyInverse (3 / 2))
            (butteraugliFuzzyInverse (1 / 2))]
        else []) ∧
    (runButteraugli E env p1 p2 dm cs).stdoutLines =
      [OutLine.score (E.butteraugliDistance im1 im2 (4 / 5)).1,
        OutLine.pnormLine 3
          (E.computeDistanceP (E.butteraugliDistance im1 im2 (4 / 5)).2 3)] := by
  by_cases hdm : dm = "" <;>
    simp [runButteraugli, h1, h2, hx, hy, hdm]

/-- Witness for C4: a concrete successful run makes exactly the
distance call with asymmetry 4/5 and the pooling call with p = 3. -/
theorem tool_uses_asymmetry_and_p3_witness :
    (envConst (constImage 2 2 0)).readFile "a" "" = some (constImage 2 2 0) ∧
    (envConst (constImage 2 2 0)).readFile "b" "" = some (constImage 2 2 0) ∧
    (constImage 2 2 0).xsize = (constImage 2 2 0).xsize ∧
    (constImage 2 2 0).ysize = (constImage 2 2 0).ysize ∧
    (runButteraugli dummyEngine (envConst (constImage 2 2 0))
        "a" "b" "" "").engineCalls =
      [EngineCall.distance (4 / 5), EngineCall.pnormCall 3] :=
  ⟨rfl, rfl, rfl, rfl,
    (tool_uses_asymmetry_and_p3 dummyEngine (envConst (constImage 2 2 0))
        "a" "b" "" "" (constImage 2 2 0) (constImage 2 2 0)
        rfl rfl rfl rfl).1⟩

/-- C10: with at least two arguments after the program name, `argv[1]` and
`argv[2]` are unconditionally the reference and distorted paths while the
option scan also starts at `argv[2]`; a flag at position 2 is simultaneously
consumed as a flag (its value taken from position 3) and passed as the
distorted path; a flag appearing as the final argument with no following
value is silently ignored; unrecognized arguments are silently skipped and
scanning continues past them. -/
theorem arg_parsing_quirks :
    (∀ (E : Engine) (env : Env) (args : List String), 3 ≤ args.length →
      mainTool E env args =
        runButteraugli E env (args.getD 1 "") (args.getD 2 "")
          (parseFlags args).1 (parseFlags args).2) ∧
    (∀ (E : Engine) (env : Env) (p r v : String),
      (parseFlags [p, r, "--distmap", v] = (v, "") ∧
        mainTool E env [p, r, "--distmap", v] =
          runButteraugli E env r "--distmap" v "") ∧
      (parseFlags [p, r, "--colorspace", v] = ("", v) ∧
        mainTool E env [p, r, "--colorspace", v] =
          runButteraugli E env r "--colorspace" "" v)) ∧
    (∀ p r d : String, d ≠ "--distmap" → d ≠ "--colorspace" →
      parseFlags [p, r, d, "--distmap"] = ("", "") ∧
      parseFlags [p, r, d, "--colorspace"] = ("", "")) ∧
    (∀ p r d x v : String, d ≠ "--distmap" → d ≠ "--colorspace" →
      x ≠ "--distmap" → x ≠ "--colorspace" →
      parseFlags [p, r, d, x, "--distmap", v] = (v, "")) := by
  refine ⟨?_, ?_, ?_, ?_⟩
  · intro E env args h
    simp [mainTool, Nat.not_lt.mpr h]
  · intro E env p r v
    have hdm : parseFlags [p, r, "--distmap", v] = (v, "") := by
      unfold parseFlags
      rw [flagLoop]
      simp [flagStep]
      rw [flagLoop]
      simp
    have hcs : parseFlags [p, r, "--colorspace", v] = ("", v) := by
      unfold parseFlags
      rw [flagLoop]
      simp [flagStep]
      rw [flagLoop]
      simp
    exact ⟨⟨hdm, by simp [mainTool, hdm]⟩, ⟨hcs, by simp [mainTool, hcs]⟩⟩
  · intro p r d hd hc
    constructor
    · unfold parseFlags
      rw [flagLoop]
      simp [flagStep, hd, hc]
      rw [flagLoop]
      simp [flagStep]
      rw [flagLoop]
      simp
    · unfold parseFlags
      rw [flagLoop]
      simp [flagStep, hd, hc]
      rw [flagLoop]
      simp [flagStep]
      rw [flagLoop]
      simp
  · intro p r d x v hd1 hd2 hx1 hx2
    unfold parseFlags
    rw [flagLoop]
    simp [flagStep, hd1, hd2]
    rw [flagLoop]
    simp [flagStep, hx1, hx2]
    rw [flagLoop]
    simp [flagStep]
    rw [flagLoop]
    simp

/-- Witness for C10: the four parsing behaviors at concrete argument
lists. -/
theorem arg_parsing_quirks_witness :
    (3 ≤ (["t", "a", "b"] : List String).length ∧
      mainTool dummyEngine envByPath ["t", "a", "b"] =
        runButteraugli dummyEngine envByPath "a" "b"
          (parseFlags ["t", "a", "b"]).1 (parseFlags ["t", "a", "b"]).2) ∧
    parseFlags ["t", "a", "--distmap", "m"] = ("m", "") ∧
    parseFlags ["t", "a", "b", "--distmap"] = ("", "") ∧
    parseFlags ["t", "a", "b", "x", "--distmap", "m"] = ("m", "") :=
  ⟨⟨by decide,
      arg_parsing_quirks.1 dummyEngine envByPath ["t", "a", "b"] (by decide)⟩,
    (arg_parsing_quirks.2.1 dummyEngine envByPath "t" "a" "m").1.1,
    (arg_parsing_quirks.2.2.1 "t" "a" "b" (by decide) (by decide)).1,
    arg_parsing_quirks.2.2.2 "t" "a" "b" "x" "m"
      (by decide) (by decide) (by decide) (by decide)⟩

end Butteraugli
